import Mathlib

/-!
Verification of the admission-webhook decision logic of
managed-cluster-validating-webhooks.

The Python handlers are shallowly embedded: JSON/Python values become the
inductive type JVal, dictionary access that can raise (KeyError,
AttributeError, TypeError) returns Option, and each route handler becomes a
total Lean function that maps a raised exception to the invalid response,
exactly as the try/except blocks in the source do.

Modelling conventions, noted once here:
- string-typed Kubernetes fields (username, operation, namespace, group
  names, sourceNamespace) are extracted with asString; a non-string value in
  such a field is treated as a fault, which narrows the model only on
  payloads no claim quantifies over;
- userInfo.groups entries are extracted as a list of strings (the
  Kubernetes type for that field);
- membership tests on non-dict values are treated as faults.
-/

inductive JVal where
  | null : JVal
  | bool : Bool → JVal
  | str : String → JVal
  | list : List JVal → JVal
  | obj : List (String × JVal) → JVal

/-- Lookup of a key in the field list of a Python dict. -/
def jlookup : List (String × JVal) → String → Option JVal
  | [], _ => none
  | (k, v) :: rest, key => if k == key then some v else jlookup rest key

/-- Python subscript access d[k]: KeyError / TypeError raise, modelled as none. -/
def getItem : JVal → String → Option JVal
  | .obj fs, k => jlookup fs k
  | _, _ => none

/-- Python d.keys(): raises AttributeError on non-dict values (None included). -/
def keysOf : JVal → Option (List String)
  | .obj fs => some (fs.map Prod.fst)
  | _ => none

/-- Python membership test "k in d" for dicts; raises otherwise. -/
def pyHasKey (v : JVal) (k : String) : Option Bool :=
  match keysOf v with
  | some ks => some (ks.contains k)
  | none => none

/-- Boolean key-presence predicate on a value already known to be a dict. -/
def hasKeyB (v : JVal) (k : String) : Bool :=
  match keysOf v with
  | some ks => ks.contains k
  | none => false

/-- Extraction of a Python str; any other value is a fault at use sites that
call string methods on it. -/
def asString : JVal → Option String
  | .str s => some s
  | _ => none

/-- Extraction of a list of strings from a JSON array. -/
def asStringList : JVal → Option (List String)
  | .list xs => xs.mapM asString
  | _ => none

/-- Embedding of request_helper/validate.py validate_request_structure: the
conjunction of key-presence checks, in source order; any subscript or .keys()
on a missing key or non-dict value raises, which the Option layer records as
none. -/
def validate_request_structure (j : JVal) : Option Bool := do
  let docKeys ← keysOf j
  let v := docKeys.contains "request"
  let req ← getItem j "request"
  let reqKeys ← keysOf req
  let v := v && reqKeys.contains "kind"
  let v := v && reqKeys.contains "resource"
  let v := v && reqKeys.contains "operation"
  let v := v && reqKeys.contains "object"
  let userInfo ← getItem req "userInfo"
  let userKeys ← keysOf userInfo
  let v := v && userKeys.contains "username"
  let v := v && userKeys.contains "groups"
  let groups ← getItem userInfo "groups"
  let v := v && (match groups with | .list _ => true | _ => false)
  let v := v && userKeys.contains "extra"
  let obj ← getItem req "object"
  let objKeys ← keysOf obj
  let v := v && objKeys.contains "metadata"
  let v := v && objKeys.contains "users"
  let metadata ← getItem obj "metadata"
  let metaKeys ← keysOf metadata
  let v := v && metaKeys.contains "name"
  let v := v && metaKeys.contains "creationTimestamp"
  let v := v && metaKeys.contains "uid"
  let resource ← getItem req "resource"
  let resKeys ← keysOf resource
  let v := v && resKeys.contains "group"
  let v := v && resKeys.contains "version"
  let v := v && resKeys.contains "resource"
  let kind ← getItem req "kind"
  let kindKeys ← keysOf kind
  let v := v && kindKeys.contains "group"
  let v := v && kindKeys.contains "version"
  let v := v && kindKeys.contains "kind"
  return v

/-- The response envelope produced by request_helper/responses.py: the uid
echoed from the request, the allowed flag, and the status message. -/
structure AdmissionResponse where
  uid : JVal
  allowed : Bool
  message : String

/-- Embedding of response_base: reads req["uid"], which raises if absent. -/
def response_base (req : JVal) (allowed : Bool) (msg : String) : Option AdmissionResponse := do
  let uid ← getItem req "uid"
  return ⟨uid, allowed, msg⟩

/-- Embedding of response_allow: the caller-supplied message is only logged;
the body always carries "Access granted". -/
def response_allow (req : JVal) (_logMsg : String := "Allowed resource for this cluster") :
    Option AdmissionResponse :=
  response_base req true "Access granted"

/-- Embedding of response_deny: the body carries the caller-supplied message. -/
def response_deny (req : JVal) (msg : String := "Prohibited resource for this cluster") :
    Option AdmissionResponse :=
  response_base req false msg

/-- Embedding of response_invalid: uid "", denied, "Invalid request". -/
def response_invalid : AdmissionResponse :=
  ⟨JVal.str "", false, "Invalid request"⟩

/-- Python str.startswith, stated on the character lists so that concrete
instances reduce inside the kernel. -/
def strStartsWith (s p : String) : Bool := p.data.isPrefixOf s.data

/-- Python str.endswith, stated on the character lists. -/
def strEndsWith (s p : String) : Bool := p.data.isSuffixOf s.data

/-! Regex matchers. The handlers use anchored re.match with fixed patterns;
each pattern is compiled here to the boolean function it denotes. -/

/-- GROUP_VALIDATION_PROTECTED_GROUP_REGEX default
(^osd-sre.*|^dedicated-admins$|^cluster-admins$|^layered-cs-sre-admins$). -/
def protected_group_match (name : String) : Bool :=
  strStartsWith name "osd-sre" || name == "dedicated-admins" ||
  name == "cluster-admins" || name == "layered-cs-sre-admins"

/-- namespace_validation.py privileged_namespace_re
(^kube.*|^openshift.*|^default$|^redhat.*). -/
def privileged_namespace_match (ns : String) : Bool :=
  strStartsWith ns "kube" || strStartsWith ns "openshift" || ns == "default" ||
  strStartsWith ns "redhat"

/-- namespace_validation.py privileged_serviceaccount_re
^system:serviceaccounts:(kube.*|openshift.*|default|redhat.*), matched as a
prefix of the group name by re.match. -/
def privileged_sa_match (g : String) : Bool :=
  strStartsWith g "system:serviceaccounts:kube" ||
  strStartsWith g "system:serviceaccounts:openshift" ||
  strStartsWith g "system:serviceaccounts:default" ||
  strStartsWith g "system:serviceaccounts:redhat"

/-- Python equality of an arbitrary value with a str literal: true only for
equal strings, false for every other type, never raising. -/
def jvalEqStr (v : JVal) (s : String) : Bool :=
  match v with
  | .str t => t == s
  | _ => false

/-! Group evaluator, group_validation.py. -/

/-- Embedding of group_validation.match_group_prefix: the first non-empty
configured group prefix that the group name starts with, None when no prefix
matches. -/
def match_group_pfx (group : String) (group_prefixes : List String) : Option String :=
  group_prefixes.find? (fun p => !(p == "") && strStartsWith group p)

/-- Body of the try block of group_validation.get_response. The admin group
list, the protected-group matcher and the exclusive group prefixes stand for
the module-level configuration read from the environment. none models a
raised exception. -/
def group_eval (admins : List String) (pm : String → Bool)
    (group_prefixes : List String) (j : JVal) : Option AdmissionResponse := do
  let body ← getItem j "request"
  let objv ← getItem body "object"
  let group_name_v ←
    match objv with
    | .null => do
        let old ← getItem body "oldObject"
        let md ← getItem old "metadata"
        getItem md "name"
    | _ => do
        let md ← getItem objv "metadata"
        getItem md "name"
  let userinfo := (getItem body "userInfo").getD (JVal.obj [])
  let user_groups ←
    match getItem userinfo "groups" with
    | some g => asStringList g
    | none => pure []
  let user_name := getItem userinfo "username"
  if jvalEqStr (user_name.getD JVal.null) "kube:admin" ||
     jvalEqStr (user_name.getD JVal.null) "system:admin" then
    -- the log_debug argument is evaluated eagerly and reads the operation
    let _ ← getItem body "operation"
    response_allow body
  else do
    let group_name ← asString group_name_v
    if pm group_name then do
      let opv ← getItem body "operation"
      let op ← asString opv
      let deny_msg := "User not authorized to " ++ op ++ " group " ++ group_name
      let excl_pfx := match_group_pfx group_name group_prefixes
      let user_groups_pfxs : List String :=
        match excl_pfx with
        | some p => user_groups.filter (fun g => strStartsWith g p)
        | none => []
      if user_groups.any (fun g => admins.contains g) then
        if excl_pfx.isSome && user_groups_pfxs.isEmpty then
          response_deny body deny_msg
        else
          response_allow body (op ++ " group " ++ group_name)
      else
        response_deny body deny_msg
    else
      response_allow body

/-- group_validation.get_response with its except clause: a raised exception
becomes the invalid response. -/
def group_get_response (admins : List String) (pm : String → Bool)
    (group_prefixes : List String) (j : JVal) : AdmissionResponse :=
  (group_eval admins pm group_prefixes j).getD response_invalid

/-- group_validation.handle_request: structural validation (an exception there
counts as invalid), then get_response. -/
def group_handle_request (admins : List String) (pm : String → Bool)
    (group_prefixes : List String) (j : JVal) : AdmissionResponse :=
  if (validate_request_structure j).getD false then
    group_get_response admins pm group_prefixes j
  else
    response_invalid

/-! Namespace evaluator, namespace_validation.py. All configuration is
hardcoded in the source. -/

/-- Body of the try block of namespace_validation.get_response. -/
def namespace_eval (j : JVal) : Option AdmissionResponse := do
  let body ← getItem j "request"
  let hasUI ← pyHasKey body "userInfo"
  if !hasUI then
    pure response_invalid
  else do
    let userinfo := (getItem body "userInfo").getD JVal.null
    let hasGroups ← pyHasKey userinfo "groups"
    let requester_groups ←
      if hasGroups then asStringList ((getItem userinfo "groups").getD JVal.null)
      else pure []
    let ns_v ← getItem body "namespace"
    if requester_groups.any privileged_sa_match then
      response_allow body
    else do
      let requested_ns ← asString ns_v
      if strStartsWith requested_ns "redhat" &&
         requester_groups.contains "layered-sre-cluster-admins" then
        response_allow body
      else
        if privileged_namespace_match requested_ns then
          if requester_groups.contains "osd-sre-admins" ||
             requester_groups.contains "osd-sre-cluster-admins" then
            response_allow body
          else do
            -- the username is read only when both group tests fail
            let uname ← getItem userinfo "username"
            if jvalEqStr uname "kube:admin" || jvalEqStr uname "system:admin" then
              response_allow body
            else
              response_deny body
                ("You cannot update the privileged namespace " ++ requested_ns ++ ".")
        else
          response_allow body

/-- namespace_validation.get_response with its except clause. -/
def namespace_get_response (j : JVal) : AdmissionResponse :=
  (namespace_eval j).getD response_invalid

/-- namespace_validation.handle_request. -/
def namespace_handle_request (j : JVal) : AdmissionResponse :=
  if (validate_request_structure j).getD false then
    namespace_get_response j
  else
    response_invalid

/-! Subscription evaluator, subscription_validation.py. -/

/-- Body of the try block of subscription_validation.handle_request; the
valid source namespaces stand for SUBSCRIPTION_VALIDATION_NAMESPACES
(default openshift-marketplace). -/
def subscription_eval (validNamespaces : List String) (j : JVal) :
    Option AdmissionResponse := do
  let body ← getItem j "request"
  let ui ← getItem body "userInfo"
  let groupsv ← getItem ui "groups"
  let requester_groups ← asStringList groupsv
  let objv ← getItem body "object"
  let specv ← getItem objv "spec"
  let snsv ← getItem specv "sourceNamespace"
  let source_namespace ← asString snsv
  if requester_groups.contains "dedicated-admins" then
    if !validNamespaces.contains source_namespace then
      response_deny body
        ("You cannot manage Subscriptions that target " ++ source_namespace ++ ".")
    else
      response_allow body
  else
    response_allow body

/-- subscription_validation.handle_request: validation, then the guarded
body, exceptions becoming the invalid response. -/
def subscription_handle_request (validNamespaces : List String) (j : JVal) :
    AdmissionResponse :=
  if (validate_request_structure j).getD false then
    (subscription_eval validNamespaces j).getD response_invalid
  else
    response_invalid

/-! User evaluator, user_validation.py. -/

/-- The usernames that bypass the user and identity evaluators. -/
def oauth_admin_usernames (v : JVal) : Bool :=
  jvalEqStr v "kube:admin" || jvalEqStr v "system:admin" ||
  jvalEqStr v "system:serviceaccount:openshift-authentication:oauth-openshift"

/-- Body of the try block of user_validation.handle_request; admins stands
for GROUP_VALIDATION_ADMIN_GROUP. -/
def user_eval (admins : List String) (j : JVal) : Option AdmissionResponse := do
  let body ← getItem j "request"
  let objv ← getItem body "object"
  let user_name_v ←
    match objv with
    | .null => do
        let old ← getItem body "oldObject"
        let md ← getItem old "metadata"
        getItem md "name"
    | _ => do
        let md ← getItem objv "metadata"
        getItem md "name"
  let userinfo ← getItem body "userInfo"
  let unamev ← getItem userinfo "username"
  if oauth_admin_usernames unamev then
    response_allow body
  else do
    let user_name ← asString user_name_v
    if strEndsWith user_name "@redhat.com" then do
      let groupsv ← getItem userinfo "groups"
      let user_groups ← asStringList groupsv
      let opv ← getItem body "operation"
      let op ← asString opv
      if user_groups.any (fun g => admins.contains g) then
        response_allow body (op ++ " user " ++ user_name)
      else
        response_deny body ("User not authorized to " ++ op ++ " user " ++ user_name)
    else
      response_allow body

/-- user_validation.handle_request. -/
def user_handle_request (admins : List String) (j : JVal) : AdmissionResponse :=
  if (validate_request_structure j).getD false then
    (user_eval admins j).getD response_invalid
  else
    response_invalid

/-! Identity evaluator, identity_validation.py. -/

/-- Body of the try block of identity_validation.get_response;
identityProvider stands for IDENTITY_PROVIDER (default OpenShift_SRE). -/
def identity_eval (identityProvider : String) (admins : List String) (j : JVal) :
    Option AdmissionResponse := do
  let body ← getItem j "request"
  let objv ← getItem body "object"
  let identity_name_v ←
    match objv with
    | .null => do
        let old ← getItem body "oldObject"
        let md ← getItem old "metadata"
        getItem md "name"
    | _ => do
        let md ← getItem objv "metadata"
        getItem md "name"
  let provider_name_v ←
    match objv with
    | .null => do
        let old ← getItem body "oldObject"
        getItem old "providerName"
    | _ => getItem objv "providerName"
  let userinfo ← getItem body "userInfo"
  let unamev ← getItem userinfo "username"
  if oauth_admin_usernames unamev then
    response_allow body
  else
    if jvalEqStr provider_name_v identityProvider then do
      let groupsv ← getItem userinfo "groups"
      let user_groups ← asStringList groupsv
      let opv ← getItem body "operation"
      let op ← asString opv
      let identity_name ← asString identity_name_v
      if user_groups.any (fun g => admins.contains g) then
        response_allow body (op ++ " identity " ++ identity_name)
      else
        response_deny body
          ("User not authorized to " ++ op ++ " identity " ++ identity_name)
    else
      response_allow body

/-- identity_validation.get_response with its except clause. -/
def identity_get_response (identityProvider : String) (admins : List String)
    (j : JVal) : AdmissionResponse :=
  (identity_eval identityProvider admins j).getD response_invalid

/-- identity_validation.handle_request. -/
def identity_handle_request (identityProvider : String) (admins : List String)
    (j : JVal) : AdmissionResponse :=
  if (validate_request_structure j).getD false then
    identity_get_response identityProvider admins j
  else
    response_invalid

/-! Regular-user evaluator, regular_user_validation.py. -/

/-- Embedding of regular_user_validation.is_request_allowed. The second
argument is whatever value the caller passes (the wrapper passes the target
object metadata name); the Python membership test groupname in
admin_groupnames compares that value against each admin group string. -/
def is_request_allowed (username : String) (groupname : JVal)
    (admin_groupnames : List String) : Bool :=
  if username == "system:unauthenticated" then false
  else if admin_groupnames.any (fun a => jvalEqStr groupname a) then true
  else if strStartsWith username "kube:" || strStartsWith username "system:" then true
  else false

/-- Body of the try block of regular_user_validation.get_response. -/
def regular_user_eval (admins : List String) (j : JVal) :
    Option AdmissionResponse := do
  let body ← getItem j "request"
  let ui ← getItem body "userInfo"
  let unamev ← getItem ui "username"
  let username ← asString unamev
  let objv ← getItem body "object"
  let group_name ←
    match objv with
    | .null => do
        let old ← getItem body "oldObject"
        let md ← getItem old "metadata"
        getItem md "name"
    | _ => do
        let md ← getItem objv "metadata"
        getItem md "name"
  if is_request_allowed username group_name admins then
    response_allow body
  else do
    -- the deny path reads object.kind even when object is null
    let kindv ← getItem objv "kind"
    let kind ← asString kindv
    let opv ← getItem body "operation"
    let op ← asString opv
    response_deny body
      ("Regular user " ++ "'" ++ username ++ "'" ++ " cannot " ++ op ++
       " kind " ++ "'" ++ kind ++ "'" ++ ".")

/-- regular_user_validation.get_response with its except clause. -/
def regular_user_get_response (admins : List String) (j : JVal) : AdmissionResponse :=
  (regular_user_eval admins j).getD response_invalid

/-- regular_user_validation.handle_request. -/
def regular_user_handle_request (admins : List String) (j : JVal) : AdmissionResponse :=
  if (validate_request_structure j).getD false then
    regular_user_get_response admins j
  else
    response_invalid

/-! Canonical admission-review payloads. These build the JSON shape the
validator demands (request with kind, resource, operation, object carrying
metadata name, creationTimestamp, uid and a users field, and userInfo with
username, groups and extra), with one variant per evaluator adding the extra
fields that evaluator reads. -/

/-- userInfo object with the given username and groups. -/
def mkUserInfo (username : String) (groups : List String) : JVal :=
  .obj [("username", .str username),
        ("groups", .list (groups.map .str)),
        ("extra", .obj [])]

/-- request.kind group/version/kind object. -/
def mkGVK : JVal :=
  .obj [("group", .str "user.openshift.io"), ("version", .str "v1"),
        ("kind", .str "Group")]

/-- request.resource group/version/resource object. -/
def mkResource : JVal :=
  .obj [("group", .str "user.openshift.io"), ("version", .str "v1"),
        ("resource", .str "groups")]

/-- object.metadata with the given name. -/
def mkMetadata (name : String) : JVal :=
  .obj [("name", .str name), ("creationTimestamp", .str "2019-01-01T00:00:00Z"),
        ("uid", .str "0000")]

/-- request.object with the given metadata name plus evaluator-specific
fields. -/
def mkObject (name : String) (extraObj : List (String × JVal)) : JVal :=
  .obj ([("metadata", mkMetadata name), ("users", .list [])] ++ extraObj)

/-- A full admission review: request with uid, kind, resource, operation,
object, userInfo, plus extra request-level fields such as namespace. -/
def mkReview (uid username : String) (groups : List String) (op name : String)
    (extraReq extraObj : List (String × JVal)) : JVal :=
  .obj [("request", .obj ([
    ("uid", .str uid),
    ("kind", mkGVK),
    ("resource", mkResource),
    ("operation", .str op),
    ("object", mkObject name extraObj),
    ("userInfo", mkUserInfo username groups)] ++ extraReq))]

/-- Payload for the group evaluator: the object name is the group acted on. -/
def mkGroupReview (uid username : String) (groups : List String)
    (op name : String) : JVal :=
  mkReview uid username groups op name [] []

/-- Payload for the namespace evaluator: adds request.namespace. -/
def mkNamespaceReview (uid username : String) (groups : List String)
    (op name ns : String) : JVal :=
  mkReview uid username groups op name [("namespace", .str ns)] []

/-- Payload for the identity evaluator: adds object.providerName. -/
def mkIdentityReview (uid username : String) (groups : List String)
    (op name provider : String) : JVal :=
  mkReview uid username groups op name [] [("providerName", .str provider)]

/-- Payload for the user evaluator. -/
def mkUserReview (uid username : String) (groups : List String)
    (op name : String) : JVal :=
  mkReview uid username groups op name [] []

/-- Payload for the subscription evaluator: adds object.spec.sourceNamespace. -/
def mkSubscriptionReview (uid username : String) (groups : List String)
    (op name sns : String) : JVal :=
  mkReview uid username groups op name []
    [("spec", .obj [("sourceNamespace", .str sns)])]

/-- Payload for the regular-user evaluator: adds object.kind. -/
def mkRegularReview (uid username : String) (groups : List String)
    (op name kind : String) : JVal :=
  mkReview uid username groups op name [] [("kind", .str kind)]

/-- Value at a key path, reading null past a missing or non-dict step. -/
def atPath (j : JVal) : List String → JVal
  | [] => j
  | k :: ks => atPath ((getItem j k).getD JVal.null) ks

/-- The privileged-namespace pattern as the spec states it: kube-.*,
openshift.*, ops-health-monitoring, management-infra, default, logging,
sre-app-check, redhat-.* as exact or prefix matches. Written from the spec
text, to be compared with privileged_namespace_match from the source. -/
def spec_privileged_namespace_match (ns : String) : Bool :=
  strStartsWith ns "kube-" || strStartsWith ns "openshift" ||
  ns == "ops-health-monitoring" || ns == "management-infra" ||
  ns == "default" || ns == "logging" || ns == "sre-app-check" ||
  strStartsWith ns "redhat-"

/-- A DELETE-shaped admission review: request.object is null and the prior
state sits in request.oldObject, every other key the validator looks at being
present. -/
def deleteReview : JVal :=
  .obj [("request", .obj [
    ("uid", .str "del-1"),
    ("kind", mkGVK),
    ("resource", mkResource),
    ("operation", .str "DELETE"),
    ("object", JVal.null),
    ("oldObject", mkObject "osd-sre-admins" []),
    ("userInfo", mkUserInfo "bob" ["dedicated-admins"])])]

/-- A review whose userInfo carries groups and extra but no username key. -/
def noUsernameReview : JVal :=
  .obj [("request", .obj [
    ("uid", .str "nu-1"),
    ("kind", mkGVK),
    ("resource", mkResource),
    ("operation", .str "UPDATE"),
    ("object", mkObject "some-group" []),
    ("userInfo", .obj [("groups", JVal.list []), ("extra", .obj [])])])]

/-- A review whose object lacks the users key (a non-Group-shaped object). -/
def noUsersFieldReview : JVal :=
  .obj [("request", .obj [
    ("uid", .str "np-1"),
    ("kind", mkGVK),
    ("resource", mkResource),
    ("operation", .str "UPDATE"),
    ("object", .obj [("metadata", mkMetadata "thing")]),
    ("userInfo", mkUserInfo "bob" [])])]

/-! Helper lemmas shared by the claim theorems. -/

theorem asStringList_map_str (gs : List String) :
    asStringList (JVal.list (gs.map JVal.str)) = some gs := by
  induction gs with
  | nil => rfl
  | cons g t ih =>
    simp only [asStringList, List.map_cons, List.mapM_cons, asString, Option.pure_def,
      Option.bind_eq_bind, Option.some_bind] at ih ⊢
    rw [ih]
    rfl

theorem validate_mkReview (uid u : String) (gs : List String) (op n : String)
    (extraReq extraObj : List (String × JVal)) :
    validate_request_structure (mkReview uid u gs op n extraReq extraObj) = some true := by
  rfl

theorem validate_some_true_shape (j : JVal)
    (h : validate_request_structure j = some true) :
    ∃ req ui obj md,
      getItem j "request" = some req ∧ getItem req "userInfo" = some ui ∧
      getItem req "object" = some obj ∧ getItem obj "metadata" = some md ∧
      hasKeyB ui "username" = true ∧ hasKeyB ui "extra" = true ∧
      hasKeyB obj "users" = true ∧ hasKeyB md "name" = true ∧
      hasKeyB md "creationTimestamp" = true ∧ hasKeyB md "uid" = true := by
  simp only [validate_request_structure, bind, Option.bind] at h
  cases hk : keysOf j with
  | none => simp [hk] at h
  | some dk =>
  simp only [hk] at h
  cases hreq : getItem j "request" with
  | none => simp [hreq] at h
  | some req =>
  simp only [hreq] at h
  cases hrk : keysOf req with
  | none => simp [hrk] at h
  | some rk =>
  simp only [hrk] at h
  cases hui : getItem req "userInfo" with
  | none => simp [hui] at h
  | some ui =>
  simp only [hui] at h
  cases huk : keysOf ui with
  | none => simp [huk] at h
  | some uk =>
  simp only [huk] at h
  cases hg : getItem ui "groups" with
  | none => simp [hg] at h
  | some g =>
  simp only [hg] at h
  cases hobj : getItem req "object" with
  | none => simp [hobj] at h
  | some obj =>
  simp only [hobj] at h
  cases hok : keysOf obj with
  | none => simp [hok] at h
  | some ok =>
  simp only [hok] at h
  cases hmd : getItem obj "metadata" with
  | none => simp [hmd] at h
  | some md =>
  simp only [hmd] at h
  cases hmk : keysOf md with
  | none => simp [hmk] at h
  | some mk =>
  simp only [hmk] at h
  cases hres : getItem req "resource" with
  | none => simp [hres] at h
  | some res =>
  simp only [hres] at h
  cases hresk : keysOf res with
  | none => simp [hresk] at h
  | some resk =>
  simp only [hresk] at h
  cases hkind : getItem req "kind" with
  | none => simp [hkind] at h
  | some kind =>
  simp only [hkind] at h
  cases hkk : keysOf kind with
  | none => simp [hkk] at h
  | some kk =>
  simp only [hkk, Option.some.injEq, Bool.and_eq_true] at h
  refine ⟨req, ui, obj, md, rfl, hui, hobj, hmd, ?_, ?_, ?_, ?_, ?_, ?_⟩ <;>
    simp [hasKeyB, huk, hok, hmk] <;> simp_all

theorem validate_mkGroupReview (uid u : String) (gs : List String) (op n : String) :
    validate_request_structure (mkGroupReview uid u gs op n) = some true :=
  validate_mkReview uid u gs op n [] []

theorem validate_mkNamespaceReview (uid u : String) (gs : List String) (op n ns : String) :
    validate_request_structure (mkNamespaceReview uid u gs op n ns) = some true :=
  validate_mkReview uid u gs op n [("namespace", .str ns)] []

theorem validate_mkIdentityReview (uid u : String) (gs : List String) (op n pn : String) :
    validate_request_structure (mkIdentityReview uid u gs op n pn) = some true :=
  validate_mkReview uid u gs op n [] [("providerName", .str pn)]

theorem validate_mkUserReview (uid u : String) (gs : List String) (op n : String) :
    validate_request_structure (mkUserReview uid u gs op n) = some true :=
  validate_mkReview uid u gs op n [] []

theorem validate_mkSubscriptionReview (uid u : String) (gs : List String) (op n sns : String) :
    validate_request_structure (mkSubscriptionReview uid u gs op n sns) = some true :=
  validate_mkReview uid u gs op n [] [("spec", .obj [("sourceNamespace", .str sns)])]

theorem validate_mkRegularReview (uid u : String) (gs : List String) (op n kd : String) :
    validate_request_structure (mkRegularReview uid u gs op n kd) = some true :=
  validate_mkReview uid u gs op n [] [("kind", .str kd)]

/-- Full characterization of the subscription handler on a canonical payload:
deny with the targeting message exactly when the requester is in
dedicated-admins and the source namespace is not in the configured list. -/
theorem subscription_mk_verdict (vns : List String) (uid u : String)
    (gs : List String) (op n sns : String) :
    subscription_handle_request vns (mkSubscriptionReview uid u gs op n sns) =
      (if gs.contains "dedicated-admins" && !vns.contains sns then
        ⟨JVal.str uid, false, "You cannot manage Subscriptions that target " ++ sns ++ "."⟩
      else ⟨JVal.str uid, true, "Access granted"⟩) := by
  have hv := validate_mkSubscriptionReview uid u gs op n sns
  simp only [subscription_handle_request]
  rw [hv]
  by_cases hd : "dedicated-admins" ∈ gs <;> by_cases hs : sns ∈ vns <;>
    simp [subscription_eval,
      mkSubscriptionReview, mkReview, mkObject, mkMetadata, mkUserInfo, mkGVK, mkResource,
      getItem, jlookup, keysOf, asString, asStringList_map_str,
      response_allow, response_deny, response_base, hd, hs]

/-- Emptiness of a filtered list expressed through any. -/
theorem filter_isEmpty_eq_not_any (p : String → Bool) (l : List String) :
    (l.filter p).isEmpty = !l.any p := by
  induction l with
  | nil => rfl
  | cons a t ih =>
    by_cases hpa : p a = true <;> simp [List.filter_cons, List.any_cons, hpa, ih]

theorem strStartsWith_kube_admin : strStartsWith "kube:admin" "kube:" = true := by rfl

theorem strStartsWith_system_admin : strStartsWith "system:admin" "system:" = true := by rfl

/-- C8: the allow constructor always carries "Access granted" in the body
(whatever richer message the evaluator supplied), the deny constructor
carries the supplied message with allowed false, and the invalid response is
uid "", denied, "Invalid request". -/
theorem response_builder_contract :
    (∀ (req : JVal) (msg : String) (r : AdmissionResponse),
        response_allow req msg = some r →
        r.allowed = true ∧ r.message = "Access granted") ∧
    (∀ (req : JVal) (msg : String) (r : AdmissionResponse),
        response_deny req msg = some r →
        r.allowed = false ∧ r.message = msg) ∧
    response_invalid = ⟨JVal.str "", false, "Invalid request"⟩ := by
  refine ⟨?_, ?_, rfl⟩ <;> intro req msg r h <;>
    cases hu : getItem req "uid" <;>
      simp [response_allow, response_deny, response_base, hu, bind, Option.bind] at h <;>
        simp [← h]

/-- C8 witness: the contract evaluated on a concrete request carrying uid u1
and a rich evaluator message. -/
theorem response_builder_contract_witness :
    (⟨JVal.str "u1", true, "Access granted"⟩ : AdmissionResponse).allowed = true ∧
    (⟨JVal.str "u1", true, "Access granted"⟩ : AdmissionResponse).message = "Access granted" :=
  response_builder_contract.1 (JVal.obj [("uid", JVal.str "u1")])
    "UPDATE group osd-sre-admins" _ rfl

/-- C3: on a DELETE payload, whose request.object is null, the structural
validator does not return an answer: the call request.object.keys() raises
(modelled as none), so every caller falls into its except branch and answers
with the invalid response. -/
theorem validate_faults_on_null_object :
    validate_request_structure deleteReview = none ∧
    group_handle_request ["osd-sre-admins", "osd-sre-cluster-admins"] protected_group_match []
      deleteReview = response_invalid :=
  ⟨rfl, rfl⟩

/-- C5: the regular-user predicate evaluated at the inputs the claim and the
test file assert to be allowed. The second argument the tests pass is the
requester group list; the code compares that list itself for membership in
the admin list, so both calls return false. -/
theorem is_request_allowed_on_group_lists :
    is_request_allowed "bob" (JVal.list [JVal.str "osd-sre-admins"]) ["osd-sre-admins"] = false ∧
    is_request_allowed "nmalik@redhat.com"
      (JVal.list [JVal.str "something-else", JVal.str "osd-sre-admins"])
      ["osd-sre-admins"] = false := by
  exact ⟨rfl, rfl⟩

/-- C6: the subscription evaluator denies with the targeting message exactly
when the requester is in dedicated-admins and spec.sourceNamespace is outside
the configured namespace list; every other case is allowed. -/
theorem subscription_dedicated_admins_verdict (vns : List String) (uid u : String)
    (gs : List String) (op n sns : String) :
    subscription_handle_request vns (mkSubscriptionReview uid u gs op n sns) =
      (if gs.contains "dedicated-admins" && !vns.contains sns then
        ⟨JVal.str uid, false, "You cannot manage Subscriptions that target " ++ sns ++ "."⟩
      else ⟨JVal.str uid, true, "Access granted"⟩) :=
  subscription_mk_verdict vns uid u gs op n sns

/-- C7: every handler fails closed. Whenever structural validation does not
return True (it returns False or raises), and whenever the evaluation body
raises, the handler answers with the invalid response, whose verdict is
allowed false with message "Invalid request"; no fault path yields an allow. -/
theorem fail_closed_handlers
    (admins : List String) (pm : String → Bool) (pfxs : List String)
    (idp : String) (vns : List String) (j : JVal) :
    (response_invalid.allowed = false ∧ response_invalid.message = "Invalid request") ∧
    ((validate_request_structure j).getD false = false →
      group_handle_request admins pm pfxs j = response_invalid ∧
      namespace_handle_request j = response_invalid ∧
      identity_handle_request idp admins j = response_invalid ∧
      user_handle_request admins j = response_invalid ∧
      subscription_handle_request vns j = response_invalid ∧
      regular_user_handle_request admins j = response_invalid) ∧
    (group_eval admins pm pfxs j = none →
      group_handle_request admins pm pfxs j = response_invalid) ∧
    (namespace_eval j = none → namespace_handle_request j = response_invalid) ∧
    (identity_eval idp admins j = none →
      identity_handle_request idp admins j = response_invalid) ∧
    (user_eval admins j = none → user_handle_request admins j = response_invalid) ∧
    (subscription_eval vns j = none →
      subscription_handle_request vns j = response_invalid) ∧
    (regular_user_eval admins j = none →
      regular_user_handle_request admins j = response_invalid) := by
  refine ⟨⟨rfl, rfl⟩, ?_, ?_, ?_, ?_, ?_, ?_, ?_⟩ <;> intro h
  · simp [group_handle_request, namespace_handle_request, identity_handle_request,
      user_handle_request, subscription_handle_request, regular_user_handle_request, h]
  all_goals
    by_cases hb : (validate_request_structure j).getD false = true <;>
      simp [group_handle_request, namespace_handle_request, identity_handle_request,
        user_handle_request, subscription_handle_request, regular_user_handle_request,
        group_get_response, namespace_get_response, identity_get_response,
        regular_user_get_response, h, hb]

/-- C7 witness: the empty JSON object fails validation and every evaluator
body raises on it, so all six handlers answer with the invalid response. -/
theorem fail_closed_handlers_witness :
    group_handle_request [] protected_group_match [] (JVal.obj []) = response_invalid ∧
    namespace_handle_request (JVal.obj []) = response_invalid ∧
    identity_handle_request "OpenShift_SRE" [] (JVal.obj []) = response_invalid ∧
    user_handle_request [] (JVal.obj []) = response_invalid ∧
    subscription_handle_request [] (JVal.obj []) = response_invalid ∧
    regular_user_handle_request [] (JVal.obj []) = response_invalid :=
  (fail_closed_handlers [] protected_group_match [] "OpenShift_SRE" [] (JVal.obj [])).2.1 rfl

/-- Structural validation cannot succeed when the userInfo value has no
username key: the username check of validate.py is then false. -/
theorem validate_not_true_of_no_username (j req ui : JVal)
    (hreq : getItem j "request" = some req)
    (hui : getItem req "userInfo" = some ui)
    (hun : hasKeyB ui "username" = false) :
    (validate_request_structure j).getD false = false := by
  cases hvt : validate_request_structure j with
  | none => rfl
  | some b =>
    cases b with
    | false => rfl
    | true =>
      obtain ⟨req2, ui2, _, _, h1, h2, _, _, h5, _⟩ := validate_some_true_shape j hvt
      rw [hreq] at h1
      injection h1 with h1e
      subst h1e
      rw [hui] at h2
      injection h2 with h2e
      subst h2e
      rw [hun] at h5
      exact absurd h5 (by simp)

/-- C9: a request whose userInfo carries no username key at all is answered
by the group handler with the invalid response, not with a policy allow or
deny. -/
theorem group_no_username_invalid
    (admins : List String) (pm : String → Bool) (pfxs : List String)
    (j req ui : JVal)
    (hreq : getItem j "request" = some req)
    (hui : getItem req "userInfo" = some ui)
    (hun : hasKeyB ui "username" = false) :
    group_handle_request admins pm pfxs j = response_invalid := by
  have hv := validate_not_true_of_no_username j req ui hreq hui hun
  simp [group_handle_request, hv]

/-- C9 witness: a concrete review whose userInfo has groups and extra but no
username is rejected as invalid by the group handler. -/
theorem group_no_username_invalid_witness :
    group_handle_request ["osd-sre-admins"] protected_group_match [] noUsernameReview =
      response_invalid :=
  group_no_username_invalid ["osd-sre-admins"] protected_group_match [] noUsernameReview
    (JVal.obj [
      ("uid", .str "nu-1"),
      ("kind", mkGVK),
      ("resource", mkResource),
      ("operation", .str "UPDATE"),
      ("object", mkObject "some-group" []),
      ("userInfo", .obj [("groups", JVal.list []), ("extra", .obj [])])])
    (JVal.obj [("groups", JVal.list []), ("extra", .obj [])]) rfl rfl rfl

/-- Structural validation cannot succeed when the object value has no users
key. -/
theorem validate_not_true_of_no_users (j : JVal)
    (hus : hasKeyB (atPath j ["request", "object"]) "users" = false) :
    (validate_request_structure j).getD false = false := by
  cases hvt : validate_request_structure j with
  | none => rfl
  | some b =>
    cases b with
    | false => rfl
    | true =>
      obtain ⟨req2, _, obj2, _, h1, _, h3, _, _, _, h7, _⟩ := validate_some_true_shape j hvt
      rw [show atPath j ["request", "object"] = obj2 from by
        simp [atPath, h1, h3]] at hus
      rw [hus] at h7
      exact absurd h7 (by simp)

/-- C10: the validator accepts only Group-shaped payloads: validity forces an
extra key under userInfo, a users key under object and name,
creationTimestamp and uid under object.metadata; consequently a payload whose
object has no users field is structurally invalid and every handler answers
it with the invalid response. -/
theorem validator_group_shape_and_consequence :
    (∀ j : JVal, validate_request_structure j = some true →
      hasKeyB (atPath j ["request", "userInfo"]) "extra" = true ∧
      hasKeyB (atPath j ["request", "object"]) "users" = true ∧
      hasKeyB (atPath j ["request", "object", "metadata"]) "name" = true ∧
      hasKeyB (atPath j ["request", "object", "metadata"]) "creationTimestamp" = true ∧
      hasKeyB (atPath j ["request", "object", "metadata"]) "uid" = true) ∧
    (∀ (admins : List String) (pm : String → Bool) (pfxs : List String)
       (idp : String) (vns : List String) (j : JVal),
      hasKeyB (atPath j ["request", "object"]) "users" = false →
      group_handle_request admins pm pfxs j = response_invalid ∧
      namespace_handle_request j = response_invalid ∧
      identity_handle_request idp admins j = response_invalid ∧
      user_handle_request admins j = response_invalid ∧
      subscription_handle_request vns j = response_invalid ∧
      regular_user_handle_request admins j = response_invalid) := by
  constructor
  · intro j h
    obtain ⟨req, ui, obj, md, h1, h2, h3, h4, _, h6, h7, h8, h9, h10⟩ :=
      validate_some_true_shape j h
    refine ⟨?_, ?_, ?_, ?_, ?_⟩ <;> simp [atPath, h1, h2, h3, h4] <;>
      simp_all
  · intro admins pm pfxs idp vns j hus
    have hv := validate_not_true_of_no_users j hus
    exact ⟨by simp [group_handle_request, hv], by simp [namespace_handle_request, hv],
      by simp [identity_handle_request, hv], by simp [user_handle_request, hv],
      by simp [subscription_handle_request, hv], by simp [regular_user_handle_request, hv]⟩

/-- C10 witness: the shape facts evaluated on a canonical valid payload, and
the invalid verdicts on a concrete payload whose object lacks users. -/
theorem validator_group_shape_witness :
    (hasKeyB (atPath (mkGroupReview "u" "alice" ["g"] "UPDATE" "grp")
        ["request", "userInfo"]) "extra" = true ∧
      hasKeyB (atPath (mkGroupReview "u" "alice" ["g"] "UPDATE" "grp")
        ["request", "object"]) "users" = true ∧
      hasKeyB (atPath (mkGroupReview "u" "alice" ["g"] "UPDATE" "grp")
        ["request", "object", "metadata"]) "name" = true ∧
      hasKeyB (atPath (mkGroupReview "u" "alice" ["g"] "UPDATE" "grp")
        ["request", "object", "metadata"]) "creationTimestamp" = true ∧
      hasKeyB (atPath (mkGroupReview "u" "alice" ["g"] "UPDATE" "grp")
        ["request", "object", "metadata"]) "uid" = true) ∧
    (group_handle_request [] protected_group_match [] noUsersFieldReview = response_invalid ∧
      namespace_handle_request noUsersFieldReview = response_invalid ∧
      identity_handle_request "OpenShift_SRE" [] noUsersFieldReview = response_invalid ∧
      user_handle_request [] noUsersFieldReview = response_invalid ∧
      subscription_handle_request [] noUsersFieldReview = response_invalid ∧
      regular_user_handle_request [] noUsersFieldReview = response_invalid) :=
  ⟨validator_group_shape_and_consequence.1 (mkGroupReview "u" "alice" ["g"] "UPDATE" "grp")
      (validate_mkGroupReview "u" "alice" ["g"] "UPDATE" "grp"),
    validator_group_shape_and_consequence.2 [] protected_group_match [] "OpenShift_SRE" []
      noUsersFieldReview rfl⟩

/-- C2 counterexample: the namespace logging matches the privileged pattern
the spec states, the requester dedicated-admins satisfies none of the bypass
conditions, yet the code allows the request, because the compiled regex in
namespace_validation.py does not cover logging. -/
theorem namespace_spec_pattern_counterexample :
    spec_privileged_namespace_match "logging" = true ∧
    privileged_sa_match "dedicated-admins" = false ∧
    privileged_namespace_match "logging" = false ∧
    namespace_handle_request
      (mkNamespaceReview "cx-1" "alice" ["dedicated-admins"] "UPDATE" "ns-obj" "logging") =
      ⟨JVal.str "cx-1", true, "Access granted"⟩ :=
  ⟨rfl, rfl, rfl, rfl⟩

/-- Symbolic evaluation of the namespace evaluator on a canonical payload:
the decision tree of namespace_validation.get_response with the branch
conditions left open. -/
theorem namespace_eval_mk (uid username : String) (gs : List String) (op n ns : String) :
    namespace_eval (mkNamespaceReview uid username gs op n ns) =
      (if gs.any privileged_sa_match then
        some ⟨JVal.str uid, true, "Access granted"⟩
      else if strStartsWith ns "redhat" && gs.contains "layered-sre-cluster-admins" then
        some ⟨JVal.str uid, true, "Access granted"⟩
      else if privileged_namespace_match ns then
        if gs.contains "osd-sre-admins" || gs.contains "osd-sre-cluster-admins" then
          some ⟨JVal.str uid, true, "Access granted"⟩
        else if username == "kube:admin" || username == "system:admin" then
          some ⟨JVal.str uid, true, "Access granted"⟩
        else
          some ⟨JVal.str uid, false,
            "You cannot update the privileged namespace " ++ ns ++ "."⟩
      else some ⟨JVal.str uid, true, "Access granted"⟩) := by
  simp [namespace_eval,
    mkNamespaceReview, mkReview, mkObject, mkMetadata, mkUserInfo, mkGVK, mkResource,
    pyHasKey, keysOf, getItem, jlookup, asString, asStringList_map_str, jvalEqStr,
    response_allow, response_deny, response_base]

/-- C2 amended: with the privileged-namespace pattern the code actually
compiles (prefixes kube, openshift, redhat and the exact name default), a
structurally valid request on a privileged namespace, from a requester with
no privileged-serviceaccount group and no layered-sre redhat exemption, is
allowed exactly when the requester is in osd-sre-admins or
osd-sre-cluster-admins or is kube:admin or system:admin, and otherwise denied
with the privileged-namespace message. -/
theorem namespace_privileged_verdict
    (uid username : String) (gs : List String) (op n ns : String)
    (hpriv : privileged_namespace_match ns = true)
    (hsa : gs.any privileged_sa_match = false)
    (hlay : (strStartsWith ns "redhat" && gs.contains "layered-sre-cluster-admins") = false) :
    namespace_handle_request (mkNamespaceReview uid username gs op n ns) =
      (if gs.contains "osd-sre-admins" || gs.contains "osd-sre-cluster-admins" ||
          username == "kube:admin" || username == "system:admin" then
        ⟨JVal.str uid, true, "Access granted"⟩
      else
        ⟨JVal.str uid, false, "You cannot update the privileged namespace " ++ ns ++ "."⟩) := by
  have hv := validate_mkNamespaceReview uid username gs op n ns
  have hlay2 : ¬(strStartsWith ns "redhat" = true ∧ "layered-sre-cluster-admins" ∈ gs) := by
    simpa using hlay
  simp only [namespace_handle_request]
  rw [hv]
  simp only [Option.getD_some, if_true]
  simp only [namespace_get_response, namespace_eval_mk]
  by_cases h1 : "osd-sre-admins" ∈ gs <;>
    by_cases h2 : "osd-sre-cluster-admins" ∈ gs <;>
      by_cases h3 : username = "kube:admin" <;>
        by_cases h4 : username = "system:admin" <;>
          simp [hpriv, hsa, hlay2, h1, h2, h3, h4]

/-- C2 witness: a dedicated-admins requester on the redhat-example namespace
is denied with the exact message the spec gives. -/
theorem namespace_privileged_verdict_witness :
    namespace_handle_request
      (mkNamespaceReview "w-1" "bob" ["dedicated-admins"] "UPDATE" "ns-obj" "redhat-example") =
      ⟨JVal.str "w-1", false, "You cannot update the privileged namespace redhat-example."⟩ := by
  have h := namespace_privileged_verdict "w-1" "bob" ["dedicated-admins"] "UPDATE" "ns-obj"
    "redhat-example" rfl rfl rfl
  simpa using h

set_option maxHeartbeats 1000000 in
/-- Symbolic evaluation of the group evaluator on a canonical payload: the
decision tree of group_validation.get_response with the branch conditions
left open. -/
theorem group_eval_mk (admins : List String) (pm : String → Bool)
    (pfxs : List String) (uid username : String) (gs : List String) (op n : String) :
    group_eval admins pm pfxs (mkGroupReview uid username gs op n) =
      (if username == "kube:admin" || username == "system:admin" then
        some ⟨JVal.str uid, true, "Access granted"⟩
      else if pm n then
        (match match_group_pfx n pfxs with
        | some p =>
          if gs.any (fun g => admins.contains g) then
            if (gs.filter (fun g => strStartsWith g p)).isEmpty then
              some ⟨JVal.str uid, false, "User not authorized to " ++ op ++ " group " ++ n⟩
            else some ⟨JVal.str uid, true, "Access granted"⟩
          else some ⟨JVal.str uid, false, "User not authorized to " ++ op ++ " group " ++ n⟩
        | none =>
          if gs.any (fun g => admins.contains g) then
            some ⟨JVal.str uid, true, "Access granted"⟩
          else some ⟨JVal.str uid, false, "User not authorized to " ++ op ++ " group " ++ n⟩)
      else some ⟨JVal.str uid, true, "Access granted"⟩) := by
  cases hpx : match_group_pfx n pfxs <;>
    simp [group_eval, mkGroupReview, mkReview, mkObject, mkMetadata, mkUserInfo, mkGVK,
      mkResource, getItem, jlookup, asString, asStringList_map_str, jvalEqStr,
      response_allow, response_deny, response_base, hpx]

/-- C4: on a structurally valid request by a non-admin username against a
protected group name, an admin-group member is denied with the
not-authorized message exactly when an exclusive prefix applies to the group
name and no requester group starts with it, and is allowed otherwise; a
requester outside the admin groups is always denied with that message. -/
theorem group_protected_verdict
    (admins : List String) (pm : String → Bool) (pfxs : List String)
    (uid username : String) (gs : List String) (op n : String)
    (hu1 : username ≠ "kube:admin") (hu2 : username ≠ "system:admin")
    (hp : pm n = true) :
    group_handle_request admins pm pfxs (mkGroupReview uid username gs op n) =
      (if gs.any (fun g => admins.contains g) then
        (match match_group_pfx n pfxs with
        | some p =>
          if gs.any (fun g => strStartsWith g p) then
            ⟨JVal.str uid, true, "Access granted"⟩
          else ⟨JVal.str uid, false, "User not authorized to " ++ op ++ " group " ++ n⟩
        | none => ⟨JVal.str uid, true, "Access granted"⟩)
      else ⟨JVal.str uid, false, "User not authorized to " ++ op ++ " group " ++ n⟩) := by
  have hv := validate_mkGroupReview uid username gs op n
  simp only [group_handle_request]
  rw [hv]
  simp only [Option.getD_some, if_true]
  simp only [group_get_response, group_eval_mk]
  cases hpx : match_group_pfx n pfxs with
  | none =>
    by_cases hA : ∃ x ∈ gs, x ∈ admins <;>
      simp [hu1, hu2, hp, hA]
  | some p =>
    by_cases hA : ∃ x ∈ gs, x ∈ admins <;>
      by_cases hF : ∃ x ∈ gs, strStartsWith x p = true
    · have hnall : ¬ ∀ x ∈ gs, strStartsWith x p = false := by
        obtain ⟨x, hx, hsw⟩ := hF
        intro hall
        exact absurd (hall x hx) (by simp [hsw])
      simp [hu1, hu2, hp, hA]
      rw [if_neg hnall, if_pos hF]
      rfl
    · have hall : ∀ x ∈ gs, strStartsWith x p = false := by
        intro x hx
        by_contra hc
        exact hF ⟨x, hx, by simpa using hc⟩
      simp [hu1, hu2, hp, hA]
      rw [if_pos hall, if_neg hF]
      rfl
    · simp [hu1, hu2, hp, hA]
    · simp [hu1, hu2, hp, hA]

/-- C4 witness: an osd-sre-cluster-admins member acting on the protected
group layered-cs-sre-admins under the exclusive prefix layered- is denied
with the not-authorized message, matching the repository test for exclusive
prefixes. -/
theorem group_protected_verdict_witness :
    group_handle_request ["osd-sre-admins", "osd-sre-cluster-admins"] protected_group_match
      ["layered-"]
      (mkGroupReview "w-2" "alice" ["osd-sre-cluster-admins"] "UPDATE"
        "layered-cs-sre-admins") =
      ⟨JVal.str "w-2", false, "User not authorized to UPDATE group layered-cs-sre-admins"⟩ := by
  have h := group_protected_verdict ["osd-sre-admins", "osd-sre-cluster-admins"]
    protected_group_match ["layered-"] "w-2" "alice" ["osd-sre-cluster-admins"] "UPDATE"
    "layered-cs-sre-admins" (by decide) (by decide) (by rfl)
  rw [h]
  rfl

/-- C1 counterexample: a kube:admin requester whose group list contains
dedicated-admins is denied by the subscription evaluator when the
sourceNamespace is outside the allow list, because that evaluator never
consults the username. -/
theorem admin_username_subscription_counterexample :
    (subscription_handle_request ["openshift-marketplace"]
      (mkSubscriptionReview "cx-2" "kube:admin" ["dedicated-admins"] "CREATE" "my-sub"
        "kube-foo")).allowed = false := by
  rfl

set_option maxHeartbeats 1000000 in
/-- Symbolic evaluation of the identity evaluator on a canonical payload. -/
theorem identity_eval_mk (idp : String) (admins : List String)
    (uid username : String) (gs : List String) (op n pn : String) :
    identity_eval idp admins (mkIdentityReview uid username gs op n pn) =
      (if username == "kube:admin" || username == "system:admin" ||
          username == "system:serviceaccount:openshift-authentication:oauth-openshift" then
        some ⟨JVal.str uid, true, "Access granted"⟩
      else if pn == idp then
        if gs.any (fun g => admins.contains g) then
          some ⟨JVal.str uid, true, "Access granted"⟩
        else
          some ⟨JVal.str uid, false, "User not authorized to " ++ op ++ " identity " ++ n⟩
      else some ⟨JVal.str uid, true, "Access granted"⟩) := by
  have hmid : identity_eval idp admins (mkIdentityReview uid username gs op n pn) =
      (if (username == "kube:admin" || username == "system:admin" ||
          username == "system:serviceaccount:openshift-authentication:oauth-openshift") = true then
        some ⟨JVal.str uid, true, "Access granted"⟩
      else if (pn == idp) = true then
        (asStringList (JVal.list (gs.map JVal.str))).bind (fun user_groups =>
          if user_groups.any (fun g => admins.contains g) = true then
            some ⟨JVal.str uid, true, "Access granted"⟩
          else
            some ⟨JVal.str uid, false,
              "User not authorized to " ++ op ++ " identity " ++ n⟩)
      else some ⟨JVal.str uid, true, "Access granted"⟩) := rfl
  rw [hmid, asStringList_map_str]
  rfl

set_option maxHeartbeats 1000000 in
/-- Symbolic evaluation of the user evaluator on a canonical payload. -/
theorem user_eval_mk (admins : List String)
    (uid username : String) (gs : List String) (op n : String) :
    user_eval admins (mkUserReview uid username gs op n) =
      (if username == "kube:admin" || username == "system:admin" ||
          username == "system:serviceaccount:openshift-authentication:oauth-openshift" then
        some ⟨JVal.str uid, true, "Access granted"⟩
      else if strEndsWith n "@redhat.com" then
        if gs.any (fun g => admins.contains g) then
          some ⟨JVal.str uid, true, "Access granted"⟩
        else
          some ⟨JVal.str uid, false, "User not authorized to " ++ op ++ " user " ++ n⟩
      else some ⟨JVal.str uid, true, "Access granted"⟩) := by
  simp [user_eval, mkUserReview, mkReview, mkObject, mkMetadata, mkUserInfo, mkGVK,
    mkResource, getItem, jlookup, asString, asStringList_map_str, jvalEqStr,
    oauth_admin_usernames, response_allow, response_deny, response_base]

set_option maxHeartbeats 1000000 in
/-- Symbolic evaluation of the regular-user evaluator on a canonical
payload. -/
theorem regular_user_eval_mk (admins : List String)
    (uid username : String) (gs : List String) (op n kd : String) :
    regular_user_eval admins (mkRegularReview uid username gs op n kd) =
      (if is_request_allowed username (JVal.str n) admins then
        some ⟨JVal.str uid, true, "Access granted"⟩
      else
        some ⟨JVal.str uid, false,
          "Regular user " ++ "'" ++ username ++ "'" ++ " cannot " ++ op ++
            " kind " ++ "'" ++ kd ++ "'" ++ "."⟩) := by
  simp [regular_user_eval, mkRegularReview, mkReview, mkObject, mkMetadata, mkUserInfo,
    mkGVK, mkResource, getItem, jlookup, asString, asStringList_map_str,
    response_allow, response_deny, response_base]

set_option maxHeartbeats 1000000 in
/-- C1 amended: a kube:admin or system:admin username is allowed
unconditionally by the group, namespace, identity, user and regular-user
evaluators, for every target name, operation, namespace, provider and group
list; the subscription evaluator ignores the username and still applies its
dedicated-admins source-namespace rule. -/
theorem admin_usernames_bypass
    (admins : List String) (pm : String → Bool) (pfxs : List String)
    (idp : String) (vns : List String)
    (uid username : String) (gs : List String) (op n ns pn sns kd : String)
    (h : username = "kube:admin" ∨ username = "system:admin") :
    (group_handle_request admins pm pfxs (mkGroupReview uid username gs op n)).allowed = true ∧
    (namespace_handle_request (mkNamespaceReview uid username gs op n ns)).allowed = true ∧
    (identity_handle_request idp admins
      (mkIdentityReview uid username gs op n pn)).allowed = true ∧
    (user_handle_request admins (mkUserReview uid username gs op n)).allowed = true ∧
    (regular_user_handle_request admins
      (mkRegularReview uid username gs op n kd)).allowed = true ∧
    subscription_handle_request vns (mkSubscriptionReview uid username gs op n sns) =
      (if gs.contains "dedicated-admins" && !vns.contains sns then
        ⟨JVal.str uid, false, "You cannot manage Subscriptions that target " ++ sns ++ "."⟩
      else ⟨JVal.str uid, true, "Access granted"⟩) := by
  refine ⟨?_, ?_, ?_, ?_, ?_, subscription_mk_verdict vns uid username gs op n sns⟩
  · have hv := validate_mkGroupReview uid username gs op n
    simp only [group_handle_request]
    rw [hv]
    simp only [Option.getD_some, if_true, group_get_response, group_eval_mk]
    rcases h with h | h <;> subst h <;> simp
  · have hv := validate_mkNamespaceReview uid username gs op n ns
    simp only [namespace_handle_request]
    rw [hv]
    simp only [Option.getD_some, if_true, namespace_get_response, namespace_eval_mk]
    rcases h with h | h <;> subst h <;> simp
  · have hv := validate_mkIdentityReview uid username gs op n pn
    simp only [identity_handle_request]
    rw [hv]
    simp only [Option.getD_some, if_true, identity_get_response, identity_eval_mk]
    rcases h with h | h <;> subst h <;> simp
  · have hv := validate_mkUserReview uid username gs op n
    simp only [user_handle_request]
    rw [hv]
    simp only [Option.getD_some, if_true, user_eval_mk]
    rcases h with h | h <;> subst h <;> simp
  · have hv := validate_mkRegularReview uid username gs op n kd
    simp only [regular_user_handle_request]
    rw [hv]
    simp only [Option.getD_some, if_true, regular_user_get_response, regular_user_eval_mk]
    rcases h with h | h <;> subst h <;>
      simp [is_request_allowed, strStartsWith_kube_admin, strStartsWith_system_admin]

/-- C1 witness: kube:admin with an empty group list is allowed by all six
evaluators on concrete targets. -/
theorem admin_usernames_bypass_witness :
    (group_handle_request ["osd-sre-admins"] protected_group_match []
      (mkGroupReview "u" "kube:admin" [] "UPDATE" "osd-sre-x")).allowed = true ∧
    (namespace_handle_request
      (mkNamespaceReview "u" "kube:admin" [] "UPDATE" "osd-sre-x" "kube-system")).allowed
      = true ∧
    (identity_handle_request "OpenShift_SRE" ["osd-sre-admins"]
      (mkIdentityReview "u" "kube:admin" [] "UPDATE" "osd-sre-x"
        "OpenShift_SRE")).allowed = true ∧
    (user_handle_request ["osd-sre-admins"]
      (mkUserReview "u" "kube:admin" [] "UPDATE" "osd-sre-x")).allowed = true ∧
    (regular_user_handle_request ["osd-sre-admins"]
      (mkRegularReview "u" "kube:admin" [] "UPDATE" "osd-sre-x" "Pod")).allowed = true ∧
    subscription_handle_request ["openshift-marketplace"]
      (mkSubscriptionReview "u" "kube:admin" [] "UPDATE" "osd-sre-x" "openshift-marketplace") =
      ⟨JVal.str "u", true, "Access granted"⟩ := by
  have h := admin_usernames_bypass ["osd-sre-admins"] protected_group_match []
    "OpenShift_SRE" ["openshift-marketplace"] "u" "kube:admin" [] "UPDATE" "osd-sre-x"
    "kube-system" "OpenShift_SRE" "openshift-marketplace" "Pod" (Or.inl rfl)
  simpa using h
